import Mathlib

/-!
Verification of the GitLab MCP server adapter (`src/index.ts`) against its
natural-language specification.

The adapter is a thin layer over the GitLab REST API: each tool builds one
HTTP GET request (path + query parameters), and either wraps the JSON
response (optionally shaped and decorated with pagination metadata read
from response headers) into a result envelope, or translates the failure
into an error envelope.  The development below is a shallow embedding of
the pure request-building and response-shaping functions of that file.
-/

namespace GitlabMcp

/-- JSON values as produced/consumed by the adapter.  `null` also stands for
the serialization of JavaScript `NaN`, which `JSON.stringify` emits as
`null`. -/
inductive JsVal where
  | null : JsVal
  | bool : Bool → JsVal
  | num : Int → JsVal
  | str : String → JsVal
  | arr : List JsVal → JsVal
  | obj : List (String × JsVal) → JsVal

/-- Escape of a single character inside a JSON string literal. -/
def escapeChar (c : Char) : String :=
  if c = '"' then "\\\""
  else if c = '\\' then "\\\\"
  else if c = '\n' then "\\n"
  else if c = '\r' then "\\r"
  else if c = '\t' then "\\t"
  else String.singleton c

/-- A JSON string literal. -/
def quoteJson (s : String) : String :=
  "\"" ++ String.join (s.data.map escapeChar) ++ "\""

mutual

/-- Models `JSON.stringify`: a fixed, total, deterministic serialization of
JSON values.  The source calls `JSON.stringify(v, null, 2)`; the indentation
argument only inserts fixed whitespace and is not modelled. -/
def stringify : JsVal → String
  | .null => "null"
  | .bool b => if b then "true" else "false"
  | .num n => toString n
  | .str s => quoteJson s
  | .arr xs => "[" ++ stringifyArr xs ++ "]"
  | .obj fs => "\x7b" ++ stringifyObj fs ++ "\x7d"

/-- Comma-separated serialization of the elements of a JSON array. -/
def stringifyArr : List JsVal → String
  | [] => ""
  | [x] => stringify x
  | x :: xs => stringify x ++ "," ++ stringifyArr xs

/-- Comma-separated serialization of the fields of a JSON object. -/
def stringifyObj : List (String × JsVal) → String
  | [] => ""
  | [(k, v)] => quoteJson k ++ ":" ++ stringify v
  | (k, v) :: fs => quoteJson k ++ ":" ++ stringify v ++ "," ++ stringifyObj fs

end

/-- One content block of a tool result envelope (`{ type: "text", text }`). -/
structure ContentBlock where
  type : String
  text : String
deriving DecidableEq

/-- The outward tool result envelope: content blocks plus an error flag.
In the source, success envelopes simply omit `isError`; omission is
modelled as `false`. -/
structure ToolResult where
  content : List ContentBlock
  isError : Bool
deriving DecidableEq

/-- The observable fields of an axios error (`axios.isAxiosError(error)`
holds): `error.response?.status` (`none` when the failure produced no HTTP
response), `error.response?.data?.message`, and the transport-level
`error.message`. -/
structure AxiosFailure where
  status : Option Nat
  dataMessage : Option String
  message : String
deriving DecidableEq

/-- A value caught by a tool's `catch` block: either an axios error or any
other thrown value, the latter carried as its string rendering `_${error}`
used by the source's template literal. -/
inductive CaughtError where
  | axios : AxiosFailure → CaughtError
  | other : String → CaughtError
deriving DecidableEq

/-- Embeds `handleApiError` (src/index.ts:182-210): the single error handler
shared by every tool's `catch` block.  Both branches return an envelope; the
non-axios branch logs and returns (its stale comment notwithstanding). -/
def handleApiError : CaughtError → ToolResult
  | .axios e =>
    let errorMessage := e.dataMessage.getD e.message
    let specificMessage :=
      if e.status = some 401 then
        "Unauthorized: Please check your GitLab API token."
      else if e.status = some 403 then
        "Forbidden: You don't have permission to access this resource."
      else if e.status = some 404 then
        "Not Found: The requested resource was not found."
      else
        "GitLab API error: " ++ errorMessage
    { content := [{ type := "text", text := specificMessage }], isError := true }
  | .other s =>
    { content := [{ type := "text", text := "An unexpected error occurred: " ++ s }],
      isError := true }

/-- Models JavaScript `parseInt(s, 10)`: skip leading whitespace, read an
optional sign, then the maximal run of decimal digits; `none` models `NaN`
(no digits found).  Trailing garbage after the digits is ignored, exactly as
in JavaScript. -/
def jsParseInt (s : String) : Option Int :=
  let cs := s.data.dropWhile fun c =>
    c == ' ' || c == '\t' || c == '\n' || c == '\r' || c == '\x0b' || c == '\x0c'
  let signAndRest : Int × List Char :=
    match cs with
    | '-' :: rest => (-1, rest)
    | '+' :: rest => (1, rest)
    | rest => (1, rest)
  let ds := signAndRest.2.takeWhile Char.isDigit
  if ds.isEmpty then none
  else some (signAndRest.1 * (ds.foldl (fun acc c => 10 * acc + (c.toNat - 48)) 0 : Nat))

/-- Models JavaScript `x || d` for an optional string `x`: `undefined` and
the empty string are falsy. -/
def jsOrStr (v : Option String) (d : String) : String :=
  match v with
  | some s => if s = "" then d else s
  | none => d

/-- Models JavaScript `x || d` for an optional number `x`: `undefined` and
`0` are falsy (`NaN`, also falsy, is not representable here). -/
def jsOrNum (v : Option Int) (d : Int) : Int :=
  match v with
  | some n => if n = 0 then d else n
  | none => d

/-- The five pagination-related response headers read by the adapter
(`x-page`, `x-per-page`, `x-total-pages`, `x-total`, `x-next-page`);
`none` is an absent header. -/
structure PageHeaders where
  xPage : Option String
  xPerPage : Option String
  xTotalPages : Option String
  xTotal : Option String
  xNextPage : Option String
deriving DecidableEq

/-- The `pagination` object before serialization.  For `current_page` and
`per_page` the field is always emitted and `none` stands for `NaN`
(serialized as `null`); for the other three, `none` stands for `undefined`
(the field is omitted by `JSON.stringify`). -/
structure Pagination where
  current_page : Option Int
  per_page : Option Int
  total_pages : Option Int
  total_items : Option Int
  next_page : Option Int
deriving DecidableEq

/-- Models `v > 0 ? v : undefined` applied to a parsed header value, where
`none` is `NaN` (`NaN > 0` is false). -/
def gtZeroOrOmit (v : Option Int) : Option Int :=
  match v with
  | some n => if 0 < n then some n else none
  | none => none

/-- The value of one of the three omittable pagination fields: the header
defaulted to `"0"` when absent or empty, parsed, kept only when positive.
This factors the pattern `parseInt(headers[k] || "0", 10)` followed by the
`> 0` check that `createPaginatedResponse` repeats for `x-total-pages`,
`x-total` and `x-next-page`. -/
def omitPos (hdr : Option String) : Option Int :=
  gtZeroOrOmit (jsParseInt (jsOrStr hdr "0"))

/-- Embeds the header processing of `createPaginatedResponse`
(src/index.ts:212-240). -/
def paginationOf (h : PageHeaders) : Pagination :=
  { current_page := jsParseInt (jsOrStr h.xPage "1")
    per_page := jsParseInt (jsOrStr h.xPerPage "20")
    total_pages := omitPos h.xTotalPages
    total_items := omitPos h.xTotal
    next_page := omitPos h.xNextPage }

/-- Serialization of a `NaN`-able number: `JSON.stringify` renders `NaN` as
`null`. -/
def numOrNull : Option Int → JsVal
  | some n => .num n
  | none => .null

/-- The `pagination` object as it is serialized: `current_page` and
`per_page` are always present; `total_pages`, `total_items` and `next_page`
are dropped by `JSON.stringify` when `undefined`. -/
def paginationJson (p : Pagination) : List (String × JsVal) :=
  [("current_page", numOrNull p.current_page), ("per_page", numOrNull p.per_page)]
  ++ (match p.total_pages with | some n => [("total_pages", JsVal.num n)] | none => [])
  ++ (match p.total_items with | some n => [("total_items", JsVal.num n)] | none => [])
  ++ (match p.next_page with | some n => [("next_page", JsVal.num n)] | none => [])

/-- Embeds `createPaginatedResponse` (src/index.ts:212-240): wraps the
payload and the derived pagination object in a single text content block. -/
def createPaginatedResponse (data : JsVal) (h : PageHeaders) : ToolResult :=
  { content :=
      [{ type := "text",
         text := stringify (JsVal.obj
           [("data", data),
            ("pagination", JsVal.obj (paginationJson (paginationOf h)))]) }],
    isError := false }

/-- A query-parameter value as sent by axios. -/
inductive PVal where
  | int : Int → PVal
  | str : String → PVal
  | bool : Bool → PVal
deriving DecidableEq

/-- An optional string argument forwarded as a query parameter; axios drops
parameters whose value is `undefined`. -/
def optStr (k : String) : Option String → List (String × PVal)
  | some s => [(k, .str s)]
  | none => []

/-- An optional numeric argument forwarded as a query parameter. -/
def optInt (k : String) : Option Int → List (String × PVal)
  | some n => [(k, .int n)]
  | none => []

/-- An optional boolean argument forwarded as a query parameter. -/
def optBool (k : String) : Option Bool → List (String × PVal)
  | some b => [(k, .bool b)]
  | none => []

/-- The argument bag accepted by both `get_issues` and `get_todos`
(`GetIssuesArgsSchema` and `GetTodosArgsSchema` declare the same shape);
each field is `none` when the caller omitted it.  Enumerated arguments
(`action`, `state`, `type`) are carried as their string value. -/
structure IssuesArgs where
  action : Option String
  author_id : Option Int
  project_id : Option Int
  group_id : Option Int
  state : Option String
  type : Option String
  page : Option Int
deriving DecidableEq

/-- Embeds the endpoint selection of `getIssues` (src/index.ts:447-449):
`args.project_id ? \x60projects/.../issues\x60 : "issues"` — note that the
JavaScript truthiness test treats a supplied `0` like an absent id. -/
def getIssuesEndpoint (a : IssuesArgs) : String :=
  match a.project_id with
  | some pid => if pid = 0 then "issues" else "projects/" ++ toString pid ++ "/issues"
  | none => "issues"

/-- Embeds the query parameters of `getIssues` (src/index.ts:451-456):
the spread of the args with `per_page: 100`, `page: args.page || 1`, and
`project_id` deleted. -/
def getIssuesParams (a : IssuesArgs) : List (String × PVal) :=
  optStr "action" a.action ++ optInt "author_id" a.author_id
  ++ optInt "group_id" a.group_id ++ optStr "state" a.state ++ optStr "type" a.type
  ++ [("per_page", .int 100), ("page", .int (jsOrNum a.page 1))]

/-- Embeds the query parameters of `getTodos` (src/index.ts:331-337): the
spread of the args (here `project_id` is kept as a query parameter) with
`page: args.page || 1` and `per_page: 100`. -/
def getTodosParams (a : IssuesArgs) : List (String × PVal) :=
  optStr "action" a.action ++ optInt "author_id" a.author_id
  ++ optInt "project_id" a.project_id ++ optInt "group_id" a.group_id
  ++ optStr "state" a.state ++ optStr "type" a.type
  ++ [("page", .int (jsOrNum a.page 1)), ("per_page", .int 100)]

/-- Embeds the query parameters of `listProjects` (src/index.ts:421-429). -/
def listProjectsParams (page : Option Int) : List (String × PVal) :=
  [("per_page", .int 100), ("page", .int (jsOrNum page 1)),
   ("order_by", .str "id"), ("sort", .str "asc"), ("simple", .bool true)]

/-- Embeds the query parameters of `search` (src/index.ts:404-409).  The
`page` parameter of the method carries the default `= 1`, applied when the
caller passed `undefined` (a supplied `0` is kept, unlike with `|| 1`). -/
def searchParams (scope searchTerm : String) (page : Option Int) : List (String × PVal) :=
  [("scope", .str scope), ("search", .str searchTerm),
   ("page", .int (page.getD 1)), ("per_page", .int 100)]

/-- Embeds the query parameters of `getIssueNotes` (src/index.ts:492-497):
besides paging, the call always fixes `sort=asc` and `order_by=created_at`. -/
def getIssueNotesParams (page : Option Int) : List (String × PVal) :=
  [("per_page", .int 100), ("page", .int (page.getD 1)),
   ("sort", .str "asc"), ("order_by", .str "created_at")]

/-- Embeds the query parameters of `listWikiPages` (src/index.ts:316-320). -/
def listWikiPagesParams (withContent : Option Bool) (page : Option Int) :
    List (String × PVal) :=
  optBool "with_content" withContent
  ++ [("page", .int (page.getD 1)), ("per_page", .int 100)]

/-- The characters `encodeURIComponent` leaves unescaped, as bytes:
ASCII letters, digits, and `- _ . ! ~ * ' ( )`. -/
def unreservedByte (b : Nat) : Bool :=
  (65 ≤ b && b ≤ 90) || (97 ≤ b && b ≤ 122) || (48 ≤ b && b ≤ 57)
  || b == 45 || b == 95 || b == 46 || b == 33 || b == 126
  || b == 42 || b == 39 || b == 40 || b == 41

/-- The uppercase hexadecimal digit for a value below 16, as emitted by
`encodeURIComponent`. -/
def hexDigitChar (n : Nat) : Char :=
  if n < 10 then Char.ofNat (48 + n) else Char.ofNat (55 + n)

/-- Percent-encoding of a single byte: unreserved bytes pass through,
every other byte becomes `%XX`. -/
def encodeByte (b : Nat) : List Char :=
  if unreservedByte b then [Char.ofNat b]
  else ['%', hexDigitChar (b / 16), hexDigitChar (b % 16)]

/-- Models JavaScript `encodeURIComponent` on the UTF-8 bytes of the
identifier: identifiers travel as byte strings, and `encodeURIComponent`
escapes exactly the non-unreserved bytes of the UTF-8 encoding. -/
def encodeURIComponent (bs : List Nat) : List Char :=
  bs.flatMap encodeByte

/-- Value of a hexadecimal digit character (both cases), `none` otherwise. -/
def hexVal (c : Char) : Option Nat :=
  if 48 ≤ c.toNat ∧ c.toNat ≤ 57 then some (c.toNat - 48)
  else if 65 ≤ c.toNat ∧ c.toNat ≤ 70 then some (c.toNat - 55)
  else if 97 ≤ c.toNat ∧ c.toNat ≤ 102 then some (c.toNat - 87)
  else none

/-- Percent-decoding back to bytes: `%XX` becomes one byte, any other
character contributes its code point; `none` on a malformed escape. -/
def percentDecode : List Char → Option (List Nat)
  | [] => some []
  | c :: cs =>
    if c = '%' then
      match cs with
      | h :: l :: rest =>
        (hexVal h).bind fun hv =>
          (hexVal l).bind fun lv =>
            (percentDecode rest).map fun tail => (16 * hv + lv) :: tail
      | _ => none
    else
      (percentDecode cs).map fun t => c.toNat :: t

/-- Verbatim insertion of an identifier's bytes into a template literal
(no encoding applied). -/
def rawChars (bs : List Nat) : List Char :=
  bs.map Char.ofNat

/-- Embeds the request path of `getIssue` (src/index.ts:376-378):
the project id is percent-encoded, the issue iid is inserted verbatim. -/
def getIssuePath (projectId issueIid : List Nat) : List Char :=
  "projects/".data ++ encodeURIComponent projectId
  ++ "/issues/".data ++ rawChars issueIid

/-- Embeds the request path of `getIssueNotes` (src/index.ts:489-490). -/
def getIssueNotesPath (projectId issueIid : List Nat) : List Char :=
  "projects/".data ++ encodeURIComponent projectId
  ++ "/issues/".data ++ rawChars issueIid ++ "/notes".data

/-- Embeds the request path of `search` (src/index.ts:399-402): the
truthiness test sends an absent — or empty, which is falsy — project id to
the global "search" endpoint. -/
def searchPath : Option (List Nat) → List Char
  | some pid =>
    if pid = [] then "search".data
    else "projects/".data ++ encodeURIComponent pid ++ "/search".data
  | none => "search".data

/-- Embeds the request path of `getWikiPage` (src/index.ts:352-353): the
slug is percent-encoded but the project id is inserted verbatim. -/
def getWikiPagePath (projectId slug : List Nat) : List Char :=
  "projects/".data ++ rawChars projectId ++ "/wikis/".data ++ encodeURIComponent slug

/-- Embeds the request path of `listWikiPages` (src/index.ts:313-314): the
project id is inserted verbatim, with no encoding. -/
def listWikiPagesPath (projectId : List Nat) : List Char :=
  "projects/".data ++ rawChars projectId ++ "/wikis".data

/-- JavaScript property access `o[k]` on a JSON object: `none` models
`undefined`. -/
def jsGet (o : List (String × JsVal)) (k : String) : Option JsVal :=
  (o.find? fun p => p.1 = k).map (·.2)

/-- Embeds the per-project mapping of `listProjects` (src/index.ts:431-437):
the shaped object has exactly the four listed keys, each holding the
(possibly `undefined`) corresponding field of the input. -/
def shapeProject (o : List (String × JsVal)) : List (String × Option JsVal) :=
  [("id", jsGet o "id"), ("name", jsGet o "name"),
   ("web_url", jsGet o "web_url"), ("path_with_namespace", jsGet o "path_with_namespace")]

/-- Keys surviving serialization: `JSON.stringify` drops object fields whose
value is `undefined`. -/
def definedKeys (o : List (String × Option JsVal)) : List String :=
  (o.filter fun p => p.2.isSome).map (·.1)

/-- Embeds the success path of `getIssue` (src/index.ts:374-390) as a
function of its arguments and of the JSON body of the HTTP response: the
call issues one GET on the built path and wraps the unshaped body, serialized,
in a single text block.  The result is the pair (request path, envelope). -/
def getIssueInvoke (projectId issueIid : List Nat) (responseData : JsVal) :
    List Char × ToolResult :=
  (getIssuePath projectId issueIid,
   { content := [{ type := "text", text := stringify responseData }],
     isError := false })

/-! ## Pagination helper lemmas -/

theorem omitPos_spec (hdr : Option String) (n : Int) :
    omitPos hdr = some n ↔ ∃ s, hdr = some s ∧ jsParseInt s = some n ∧ 0 < n := by
  cases hdr with
  | none =>
    simp only [omitPos, jsOrStr]
    have h0 : jsParseInt "0" = some 0 := by decide
    simp [h0, gtZeroOrOmit]
  | some s =>
    by_cases hs : s = ""
    · subst hs
      simp only [omitPos, jsOrStr, if_pos rfl]
      have h0 : jsParseInt "0" = some 0 := by decide
      have he : jsParseInt "" = none := by decide
      simp [h0, he, gtZeroOrOmit]
    · simp only [omitPos, jsOrStr, if_neg hs]
      cases hp : jsParseInt s with
      | none => simp [gtZeroOrOmit, hp]
      | some m =>
        by_cases hm : 0 < m
        · simp only [gtZeroOrOmit, if_pos hm]
          constructor
          · intro hsm
            cases hsm
            exact ⟨s, rfl, hp, hm⟩
          · rintro ⟨s', hs', hp', _⟩
            cases hs'
            rw [hp] at hp'
            cases hp'
            rfl
        · simp only [gtZeroOrOmit, if_neg hm]
          constructor
          · rintro h
            cases h
          · rintro ⟨s', hs', hp', hn⟩
            cases hs'
            rw [hp] at hp'
            cases hp'
            exact absurd hn hm

theorem pairMem_total_pages (p : Pagination) (n : Int) :
    ("total_pages", JsVal.num n) ∈ paginationJson p ↔ p.total_pages = some n := by
  rcases p with ⟨cp, pp, tp, ti, np⟩
  cases cp <;> cases pp <;> cases tp <;> cases ti <;> cases np <;>
    simp [paginationJson, numOrNull] <;> exact eq_comm

theorem pairMem_total_items (p : Pagination) (n : Int) :
    ("total_items", JsVal.num n) ∈ paginationJson p ↔ p.total_items = some n := by
  rcases p with ⟨cp, pp, tp, ti, np⟩
  cases cp <;> cases pp <;> cases tp <;> cases ti <;> cases np <;>
    simp [paginationJson, numOrNull] <;> exact eq_comm

theorem pairMem_next_page (p : Pagination) (n : Int) :
    ("next_page", JsVal.num n) ∈ paginationJson p ↔ p.next_page = some n := by
  rcases p with ⟨cp, pp, tp, ti, np⟩
  cases cp <;> cases pp <;> cases tp <;> cases ti <;> cases np <;>
    simp [paginationJson, numOrNull] <;> exact eq_comm

theorem keyMem_total_pages (p : Pagination) :
    "total_pages" ∈ (paginationJson p).map Prod.fst ↔ p.total_pages.isSome := by
  rcases p with ⟨cp, pp, tp, ti, np⟩
  cases tp <;> cases ti <;> cases np <;> simp [paginationJson]

theorem keyMem_total_items (p : Pagination) :
    "total_items" ∈ (paginationJson p).map Prod.fst ↔ p.total_items.isSome := by
  rcases p with ⟨cp, pp, tp, ti, np⟩
  cases tp <;> cases ti <;> cases np <;> simp [paginationJson]

theorem keyMem_next_page (p : Pagination) :
    "next_page" ∈ (paginationJson p).map Prod.fst ↔ p.next_page.isSome := by
  rcases p with ⟨cp, pp, tp, ti, np⟩
  cases tp <;> cases ti <;> cases np <;> simp [paginationJson]

theorem keyMem_always (p : Pagination) :
    "current_page" ∈ (paginationJson p).map Prod.fst
      ∧ "per_page" ∈ (paginationJson p).map Prod.fst := by
  constructor <;> simp [paginationJson]

/-! ## Claim theorems: error handling (C1, C2) -/

/-- Claim C1: every failure reaching the shared error handler is returned as
a well-formed result envelope — exactly one content block, of text kind, with
the error flag set — and no branch of the handler propagates a fault (the
handler is a total function into envelopes). -/
theorem c1_error_envelope_wellformed (e : CaughtError) :
    (handleApiError e).isError = true
      ∧ (handleApiError e).content.map ContentBlock.type = ["text"] := by
  cases e <;> exact ⟨rfl, rfl⟩

/-- Claim C1 witness at a concrete axios failure. -/
theorem c1_error_envelope_wellformed_witness :
    (handleApiError (CaughtError.axios ⟨some 500, none, "boom"⟩)).isError = true :=
  (c1_error_envelope_wellformed (CaughtError.axios ⟨some 500, none, "boom"⟩)).1

/-- Claim C2, counterexample: on a 401 failure the handler's message is
"Unauthorized: Please check your GitLab API token.", not the claimed exact
text "Unauthorized: check access token". -/
theorem c2_exact_messages_counterexample :
    (handleApiError (CaughtError.axios
        ⟨some 401, none, "Request failed with status code 401"⟩)).content
      ≠ [⟨"text", "Unauthorized: check access token"⟩] := by
  decide

/-- Claim C2 as amended: a 401 failure yields the single text block
"Unauthorized: Please check your GitLab API token."; 403 yields
"Forbidden: You don't have permission to access this resource."; 404 yields
"Not Found: The requested resource was not found."; any other axios failure
yields "GitLab API error: " followed by the response-body message or, in its
absence, the transport-level message — and in every case the envelope is
returned with the error flag set rather than a fault being thrown. -/
theorem c2_error_messages (e : AxiosFailure) :
    (handleApiError (.axios e)).isError = true
      ∧ (e.status = some 401 → (handleApiError (.axios e)).content
          = [⟨"text", "Unauthorized: Please check your GitLab API token."⟩])
      ∧ (e.status = some 403 → (handleApiError (.axios e)).content
          = [⟨"text", "Forbidden: You don't have permission to access this resource."⟩])
      ∧ (e.status = some 404 → (handleApiError (.axios e)).content
          = [⟨"text", "Not Found: The requested resource was not found."⟩])
      ∧ (e.status ≠ some 401 → e.status ≠ some 403 → e.status ≠ some 404 →
          (handleApiError (.axios e)).content
            = [⟨"text", "GitLab API error: " ++ e.dataMessage.getD e.message⟩]) := by
  refine ⟨rfl, ?_, ?_, ?_, ?_⟩
  · intro h; simp [handleApiError, h]
  · intro h; simp [handleApiError, h]
  · intro h; simp [handleApiError, h]
  · intro h1 h2 h3; simp [handleApiError, if_neg h1, if_neg h2, if_neg h3]

/-- Claim C2 witness: the amended message mapping at concrete 401 and 500
failures. -/
theorem c2_error_messages_witness :
    (handleApiError (CaughtError.axios ⟨some 401, none, "x"⟩)).content
        = [⟨"text", "Unauthorized: Please check your GitLab API token."⟩]
      ∧ (handleApiError (CaughtError.axios
            ⟨some 500, some "server exploded", "x"⟩)).content
        = [⟨"text", "GitLab API error: server exploded"⟩] :=
  ⟨(c2_error_messages ⟨some 401, none, "x"⟩).2.1 rfl,
   (c2_error_messages ⟨some 500, some "server exploded", "x"⟩).2.2.2.2
     (by decide) (by decide) (by decide)⟩

/-! ## Claim theorems: pagination normalization (C4, C9) -/

/-- Claim C4: in the emitted pagination object, each of `total_pages`,
`total_items` and `next_page` is present (with value n) exactly when the
corresponding header string is present and parses to that n with n > 0;
absent or unparseable headers leave the field omitted, never zero. -/
theorem c4_pagination_omission (h : PageHeaders) :
    (∀ n : Int, ("total_pages", JsVal.num n) ∈ paginationJson (paginationOf h)
        ↔ ∃ s, h.xTotalPages = some s ∧ jsParseInt s = some n ∧ 0 < n)
      ∧ (∀ n : Int, ("total_items", JsVal.num n) ∈ paginationJson (paginationOf h)
        ↔ ∃ s, h.xTotal = some s ∧ jsParseInt s = some n ∧ 0 < n)
      ∧ (∀ n : Int, ("next_page", JsVal.num n) ∈ paginationJson (paginationOf h)
        ↔ ∃ s, h.xNextPage = some s ∧ jsParseInt s = some n ∧ 0 < n) := by
  refine ⟨fun n => ?_, fun n => ?_, fun n => ?_⟩
  · rw [pairMem_total_pages]
    exact omitPos_spec h.xTotalPages n
  · rw [pairMem_total_items]
    exact omitPos_spec h.xTotal n
  · rw [pairMem_next_page]
    exact omitPos_spec h.xNextPage n

/-- Claim C4 witness: with all pagination headers absent the three fields
are omitted; with an ordinary positive header the field is present. -/
theorem c4_pagination_omission_witness :
    ("total_pages", JsVal.num 3)
        ∈ paginationJson (paginationOf ⟨none, none, some "3", none, none⟩)
      ∧ ¬ ("total_pages", JsVal.num 0)
        ∈ paginationJson (paginationOf ⟨none, none, none, none, none⟩) :=
  ⟨((c4_pagination_omission ⟨none, none, some "3", none, none⟩).1 3).mpr
      ⟨"3", rfl, by decide, by decide⟩,
   fun hmem => by
    obtain ⟨s, hs, -, -⟩ :=
      ((c4_pagination_omission ⟨none, none, none, none, none⟩).1 0).mp hmem
    cases hs⟩

/-- Claim C9: the emitted pagination object always carries `current_page`
and `per_page`; an absent or empty `x-page` header defaults `current_page`
to 1, and an absent or empty `x-per-page` header defaults `per_page` to 20. -/
theorem c9_pagination_defaults (h : PageHeaders) :
    "current_page" ∈ (paginationJson (paginationOf h)).map Prod.fst
      ∧ "per_page" ∈ (paginationJson (paginationOf h)).map Prod.fst
      ∧ ((h.xPage = none ∨ h.xPage = some "") → (paginationOf h).current_page = some 1)
      ∧ ((h.xPerPage = none ∨ h.xPerPage = some "") →
          (paginationOf h).per_page = some 20) := by
  refine ⟨(keyMem_always _).1, (keyMem_always _).2, ?_, ?_⟩
  · rintro (hp | hp) <;> simp [paginationOf, jsOrStr, hp] <;> decide
  · rintro (hp | hp) <;> simp [paginationOf, jsOrStr, hp] <;> decide

/-- Claim C9 witness: the defaults at concrete header maps. -/
theorem c9_pagination_defaults_witness :
    (paginationOf ⟨none, none, none, none, none⟩).current_page = some 1
      ∧ (paginationOf ⟨some "", some "", none, none, none⟩).per_page = some 20 :=
  ⟨(c9_pagination_defaults ⟨none, none, none, none, none⟩).2.2.1 (Or.inl rfl),
   (c9_pagination_defaults ⟨some "", some "", none, none, none⟩).2.2.2 (Or.inr rfl)⟩

/-! ## Query-parameter helper lemmas -/

theorem optStr_key {k k' : String} {v : PVal} {o : Option String}
    (h : (k, v) ∈ optStr k' o) : k = k' := by
  cases o with
  | none => simp [optStr] at h
  | some s => simp [optStr] at h; exact h.1

theorem optInt_key {k k' : String} {v : PVal} {o : Option Int}
    (h : (k, v) ∈ optInt k' o) : k = k' := by
  cases o with
  | none => simp [optInt] at h
  | some n => simp [optInt] at h; exact h.1

/-! ## Claim theorems: fixed page size (C5) and notes ordering (C10) -/

/-- Claim C5: every paginated listing tool (list_projects, get_issues,
get_issue_notes, search, get_todos, list_wiki_pages) sends the query
parameter per_page=100 regardless of the caller-supplied arguments. -/
theorem c5_per_page_always_100 :
    (∀ page, ("per_page", PVal.int 100) ∈ listProjectsParams page)
      ∧ (∀ a : IssuesArgs, ("per_page", PVal.int 100) ∈ getIssuesParams a)
      ∧ (∀ page, ("per_page", PVal.int 100) ∈ getIssueNotesParams page)
      ∧ (∀ scope searchTerm page,
          ("per_page", PVal.int 100) ∈ searchParams scope searchTerm page)
      ∧ (∀ a : IssuesArgs, ("per_page", PVal.int 100) ∈ getTodosParams a)
      ∧ (∀ wc page, ("per_page", PVal.int 100) ∈ listWikiPagesParams wc page) := by
  refine ⟨fun page => ?_, fun a => ?_, fun page => ?_, fun scope searchTerm page => ?_,
    fun a => ?_, fun wc page => ?_⟩
  · simp [listProjectsParams]
  · simp [getIssuesParams]
  · simp [getIssueNotesParams]
  · simp [searchParams]
  · simp [getTodosParams]
  · simp [listWikiPagesParams]

/-- Claim C10: every get_issue_notes request carries the fixed query
parameters sort=asc and order_by=created_at, for every page argument (the
parameter list does not depend on projectId or issueIid at all). -/
theorem c10_notes_chronological (page : Option Int) :
    ("sort", PVal.str "asc") ∈ getIssueNotesParams page
      ∧ ("order_by", PVal.str "created_at") ∈ getIssueNotesParams page := by
  constructor <;> simp [getIssueNotesParams]

/-! ## Claim theorems: get_issues request shape (C6) -/

/-- Claim C6, counterexample: JavaScript falsiness makes a supplied
project_id of 0 select the global "issues" path (not "projects/0/issues"),
and a supplied page of 0 is not forwarded (page=1 is sent instead). -/
theorem c6_get_issues_counterexample :
    getIssuesEndpoint ⟨none, none, some 0, none, none, none, some 0⟩ ≠ "projects/0/issues"
      ∧ ("page", PVal.int 0) ∉
          getIssuesParams ⟨none, none, some 0, none, none, none, some 0⟩ := by
  decide

/-- Claim C6 as amended: the get_issues request path is
"projects/{project_id}/issues" when a nonzero project_id is supplied and
"issues" when project_id is absent or 0 (a supplied 0 is falsy and treated
as absent); the supplied optional arguments action, author_id, group_id,
state and type are forwarded verbatim as query parameters; page is
forwarded verbatim except that a supplied 0 is replaced by the default 1
(also sent when page is absent); and project_id never appears among the
query parameters. -/
theorem c6_get_issues_request (a : IssuesArgs) :
    (∀ pid, a.project_id = some pid → pid ≠ 0 →
        getIssuesEndpoint a = "projects/" ++ toString pid ++ "/issues")
      ∧ ((a.project_id = none ∨ a.project_id = some 0) → getIssuesEndpoint a = "issues")
      ∧ (∀ v, a.action = some v → ("action", PVal.str v) ∈ getIssuesParams a)
      ∧ (∀ v, a.author_id = some v → ("author_id", PVal.int v) ∈ getIssuesParams a)
      ∧ (∀ v, a.group_id = some v → ("group_id", PVal.int v) ∈ getIssuesParams a)
      ∧ (∀ v, a.state = some v → ("state", PVal.str v) ∈ getIssuesParams a)
      ∧ (∀ v, a.type = some v → ("type", PVal.str v) ∈ getIssuesParams a)
      ∧ (∀ v, a.page = some v → v ≠ 0 → ("page", PVal.int v) ∈ getIssuesParams a)
      ∧ ((a.page = none ∨ a.page = some 0) → ("page", PVal.int 1) ∈ getIssuesParams a)
      ∧ (∀ v, ("project_id", v) ∉ getIssuesParams a) := by
  refine ⟨?_, ?_, ?_, ?_, ?_, ?_, ?_, ?_, ?_, ?_⟩
  · intro pid h hne
    simp [getIssuesEndpoint, h, hne]
  · rintro (h | h) <;> simp [getIssuesEndpoint, h]
  · intro v h
    simp [getIssuesParams, optStr, h]
  · intro v h
    simp [getIssuesParams, optInt, h]
  · intro v h
    simp [getIssuesParams, optInt, h]
  · intro v h
    simp [getIssuesParams, optStr, h]
  · intro v h
    simp [getIssuesParams, optStr, h]
  · intro v h hne
    simp [getIssuesParams, jsOrNum, h, hne]
  · rintro (h | h) <;> simp [getIssuesParams, jsOrNum, h]
  · intro v hv
    rcases List.mem_append.mp hv with hv' | hv'
    · rcases List.mem_append.mp hv' with hv'' | hv''
      · rcases List.mem_append.mp hv'' with hv3 | hv3
        · rcases List.mem_append.mp hv3 with hv4 | hv4
          · rcases List.mem_append.mp hv4 with hv5 | hv5
            · exact absurd (optStr_key hv5) (by decide)
            · exact absurd (optInt_key hv5) (by decide)
          · exact absurd (optInt_key hv4) (by decide)
        · exact absurd (optStr_key hv3) (by decide)
      · exact absurd (optStr_key hv'') (by decide)
    · simp at hv'

/-- Claim C6 witness: the amended request shape at concrete arguments. -/
theorem c6_get_issues_request_witness :
    getIssuesEndpoint ⟨some "assigned", none, some 5, none, none, none, some 2⟩
        = "projects/5/issues"
      ∧ ("action", PVal.str "assigned") ∈
          getIssuesParams ⟨some "assigned", none, some 5, none, none, none, some 2⟩
      ∧ ("page", PVal.int 2) ∈
          getIssuesParams ⟨some "assigned", none, some 5, none, none, none, some 2⟩ :=
  ⟨(c6_get_issues_request ⟨some "assigned", none, some 5, none, none, none, some 2⟩).1
      5 rfl (by decide),
   (c6_get_issues_request ⟨some "assigned", none, some 5, none, none, none, some 2⟩).2.2.1
      "assigned" rfl,
   (c6_get_issues_request
      ⟨some "assigned", none, some 5, none, none, none, some 2⟩).2.2.2.2.2.2.2.1
      2 rfl (by decide)⟩

/-! ## Claim theorems: response shaping (C7) and determinism (C8) -/

/-- Claim C7: the Project shaper of list_projects emits, for any input JSON
object (including ones with extra unknown fields), an object whose
serialized key set is contained in the four documented keys; every other
field of the input is dropped. -/
theorem c7_project_shape_keys (o : List (String × JsVal)) :
    definedKeys (shapeProject o) ⊆ ["id", "name", "web_url", "path_with_namespace"] := by
  intro k hk
  have hsub :=
    ((List.filter_sublist (l := shapeProject o)
        (p := fun p => p.2.isSome)).map Prod.fst).subset
  have hk' : k ∈ (shapeProject o).map Prod.fst := hsub hk
  simp only [shapeProject, List.map_cons, List.map_nil] at hk'
  simpa using hk'

/-- Claim C7 witness: shaping a project object with an extra unknown field
keeps its keys inside the documented set. -/
theorem c7_project_shape_keys_witness :
    ("id" : String) ∈ ["id", "name", "web_url", "path_with_namespace"] :=
  c7_project_shape_keys
    [("id", JsVal.num 1), ("secret_token", JsVal.str "s")]
    (show "id" ∈ definedKeys (shapeProject
        [("id", JsVal.num 1), ("secret_token", JsVal.str "s")]) by decide)

/-- Claim C8: get_issue is deterministic — two invocations with identical
projectId and issueIid arguments, given the same (unchanged) response body,
produce the same request and byte-identical serialized JSON text in their
envelopes. -/
theorem c8_get_issue_deterministic (p₁ p₂ i₁ i₂ : List Nat) (d₁ d₂ : JsVal)
    (hp : p₁ = p₂) (hi : i₁ = i₂) (hd : d₁ = d₂) :
    (getIssueInvoke p₁ i₁ d₁).2.content.map ContentBlock.text
        = (getIssueInvoke p₂ i₂ d₂).2.content.map ContentBlock.text
      ∧ getIssueInvoke p₁ i₁ d₁ = getIssueInvoke p₂ i₂ d₂ := by
  subst hp hi hd
  exact ⟨rfl, rfl⟩

/-- Claim C8 witness at a concrete request and response body. -/
theorem c8_get_issue_deterministic_witness :
    getIssueInvoke [57] [49] (JsVal.obj [("id", JsVal.num 7)])
      = getIssueInvoke [57] [49] (JsVal.obj [("id", JsVal.num 7)]) :=
  (c8_get_issue_deterministic [57] [57] [49] [49]
    (JsVal.obj [("id", JsVal.num 7)]) (JsVal.obj [("id", JsVal.num 7)])
    rfl rfl rfl).2

/-! ## Percent-encoding helper lemmas -/

theorem unreservedByte_lt (b : Nat) (h : unreservedByte b = true) : b < 127 := by
  simp only [unreservedByte, Bool.or_eq_true, Bool.and_eq_true, decide_eq_true_eq,
    beq_iff_eq] at h
  omega

theorem toNat_ofNat_lt (b : Nat) (h : b < 127) : (Char.ofNat b).toNat = b := by
  interval_cases b <;> decide

theorem ofNat_ne_percent (b : Nat) (h : unreservedByte b = true) :
    Char.ofNat b ≠ '%' := by
  have hlt : b < 127 := unreservedByte_lt b h
  intro heq
  have h2 := congrArg Char.toNat heq
  rw [toNat_ofNat_lt b hlt, show Char.toNat '%' = 37 from rfl] at h2
  subst h2
  exact absurd h (by decide)

theorem hexVal_hexDigitChar (n : Nat) (h : n < 16) :
    hexVal (hexDigitChar n) = some n := by
  interval_cases n <;> decide

theorem percentDecode_cons (c : Char) (cs : List Char) (h : c ≠ '%') :
    percentDecode (c :: cs) = (percentDecode cs).map fun t => c.toNat :: t := by
  rw [percentDecode.eq_def]
  simp [h]

theorem percentDecode_escape (h l : Char) (rest : List Char) :
    percentDecode ('%' :: h :: l :: rest) =
      (hexVal h).bind fun hv =>
        (hexVal l).bind fun lv =>
          (percentDecode rest).map fun tail => (16 * hv + lv) :: tail := by
  rw [percentDecode.eq_def]
  simp

theorem percentDecode_encodeByte (b : Nat) (hb : b < 256) (cs : List Char) :
    percentDecode (encodeByte b ++ cs) = (percentDecode cs).map fun t => b :: t := by
  by_cases hu : unreservedByte b
  · have hlt : b < 127 := unreservedByte_lt b hu
    have hne := ofNat_ne_percent b hu
    simp only [encodeByte, if_pos hu, List.cons_append, List.nil_append]
    rw [percentDecode_cons _ _ hne]
    simp only [toNat_ofNat_lt b hlt]
  · simp only [encodeByte, if_neg hu, List.cons_append, List.nil_append]
    rw [percentDecode_escape]
    rw [hexVal_hexDigitChar (b / 16) (by omega), hexVal_hexDigitChar (b % 16) (by omega)]
    have harith : 16 * (b / 16) + b % 16 = b := by omega
    simp only [Option.some_bind, harith]

theorem percentDecode_encode (bs : List Nat) (h : ∀ b ∈ bs, b < 256) :
    percentDecode (encodeURIComponent bs) = some bs := by
  induction bs with
  | nil => rfl
  | cons b rest ih =>
    have hb : b < 256 := h b (List.mem_cons_self b rest)
    have hrest : ∀ x ∈ rest, x < 256 := fun x hx => h x (List.mem_cons_of_mem b hx)
    simp only [encodeURIComponent, List.flatMap_cons]
    rw [percentDecode_encodeByte b hb]
    rw [show rest.flatMap encodeByte = encodeURIComponent rest from rfl, ih hrest]
    rfl

/-! ## Claim theorems: identifier percent-encoding (C3) -/

/-- Claim C3, counterexample: list_wiki_pages inserts the project id into
the path verbatim, so for the namespaced id "a/b" (bytes 97, 47, 98) the
built path does not contain its percent-encoded form "a%2Fb". -/
theorem c3_wiki_projectid_not_encoded :
    ¬ encodeURIComponent [97, 47, 98] <:+: listWikiPagesPath [97, 47, 98] := by
  decide

/-- Claim C3 as amended: the user-supplied projectId is percent-encoded in
the request paths of get_issue, get_issue_notes and search, and the slug is
percent-encoded in get_wiki_page — in each case the path contains the
encoded form, and percent-decoding the encoded segment recovers the
original identifier.  In get_wiki_page and list_wiki_pages, however, the
projectId is inserted into the path verbatim, with no percent-encoding. -/
theorem c3_identifier_encoding (pid iid slug : List Nat)
    (hp : ∀ b ∈ pid, b < 256) (hs : ∀ b ∈ slug, b < 256) :
    encodeURIComponent pid <:+: getIssuePath pid iid
      ∧ encodeURIComponent pid <:+: getIssueNotesPath pid iid
      ∧ encodeURIComponent pid <:+: searchPath (some pid)
      ∧ encodeURIComponent slug <:+: getWikiPagePath pid slug
      ∧ rawChars pid <:+: getWikiPagePath pid slug
      ∧ rawChars pid <:+: listWikiPagesPath pid
      ∧ percentDecode (encodeURIComponent pid) = some pid
      ∧ percentDecode (encodeURIComponent slug) = some slug := by
  refine ⟨⟨"projects/".data, "/issues/".data ++ rawChars iid, by simp [getIssuePath]⟩,
    ⟨"projects/".data, "/issues/".data ++ rawChars iid ++ "/notes".data,
      by simp [getIssueNotesPath]⟩,
    ?_,
    ⟨"projects/".data ++ rawChars pid ++ "/wikis/".data, [],
      by simp [getWikiPagePath]⟩,
    ⟨"projects/".data, "/wikis/".data ++ encodeURIComponent slug,
      by simp [getWikiPagePath]⟩,
    ⟨"projects/".data, "/wikis".data, by simp [listWikiPagesPath]⟩,
    percentDecode_encode pid hp, percentDecode_encode slug hs⟩
  by_cases hpe : pid = []
  · subst hpe
    simp only [searchPath, if_pos rfl, encodeURIComponent, List.flatMap_nil]
    exact List.nil_infix
  · exact ⟨"projects/".data, "/search".data, by simp [searchPath, hpe]⟩

/-- Claim C3 witness: the namespaced project id "g/s" (bytes 103, 47, 115)
is carried percent-encoded in the get_issue path and decodes back. -/
theorem c3_identifier_encoding_witness :
    encodeURIComponent [103, 47, 115] <:+: getIssuePath [103, 47, 115] [53]
      ∧ percentDecode (encodeURIComponent [103, 47, 115]) = some [103, 47, 115] :=
  ⟨(c3_identifier_encoding [103, 47, 115] [53] [104] (by decide) (by decide)).1,
   (c3_identifier_encoding [103, 47, 115] [53] [104]
      (by decide) (by decide)).2.2.2.2.2.2.1⟩

end GitlabMcp
